import Mathlib

/-!
Verification of the selector library (lexer, parser, value algebra and
three-valued evaluator) against its natural-language specification.

The C++ core (SelectorValue.cpp, SelectorToken.cpp, SelectorExpression.cpp) is
shallowly embedded below:
* `int64_t` payloads are `Int`; conversions from unsigned 64-bit values make
  the two's-complement wrap explicit.
* `double` payloads are modelled by `ℚ`; the cast `double(int64_t)` is modelled
  by the exact cast into `ℚ` (the C++ cast rounds for magnitudes above 2^53),
  and no theorem below depends on a `double` value where the models differ.
* Undefined behaviour (integer division by zero, dereferencing the null
  expression tree that `make_selector` can wrap) is modelled by `none`.
* Exceptions (`TokenException`, the `std::range_error` of `throwParseError`)
  are modelled by `Except.error`.
-/

set_option maxRecDepth 8000
set_option maxHeartbeats 3200000

namespace Selector

/-- Three-valued truth type (`BoolOrNone` of SelectorValue.h). -/
inductive BoolOrNone : Type
| BN_FALSE
| BN_TRUE
| BN_UNKNOWN
deriving DecidableEq

/-- The value algebra's discriminated union (`Value` of SelectorValue.h):
`std::variant<std::monostate, bool, int64_t, double, std::string_view>`. -/
inductive Value : Type
| unknown : Value
| bool (b : Bool) : Value
| exact (i : Int) : Value
| inexact (d : ℚ) : Value
| str (s : String) : Value
deriving DecidableEq

/-- The variant index (`Value::type()`), in declaration order
`T_UNKNOWN, T_BOOL, T_EXACT, T_INEXACT, T_STRING`. -/
def Value.tag : Value → Nat
| .unknown => 0
| .bool _ => 1
| .exact _ => 2
| .inexact _ => 3
| .str _ => 4

/-- `unknown(v)` of SelectorValue.h. -/
def unknownV : Value → Bool
| .unknown => true
| _ => false

/-- `numeric(v)` of SelectorValue.h. -/
def numeric : Value → Bool
| .exact _ => true
| .inexact _ => true
| _ => false

/-- `sameType(v1,v2)` of SelectorValue.h. -/
def sameType (v1 v2 : Value) : Bool :=
  v1.tag == v2.tag

/-- `promoteNumeric` of SelectorValue.cpp. The C++ takes its operands by
reference and mutates them; here the (possibly promoted) operands are returned
alongside the boolean result. The final branch mirrors the unreachable
`assert(false)`. -/
def promoteNumeric (v1 v2 : Value) : Bool × Value × Value :=
  if !(numeric v1 && numeric v2) then (false, v1, v2)
  else if sameType v1 v2 then (true, v1, v2)
  else
    match v1, v2 with
    | .inexact d, .exact i => (true, .inexact d, .inexact (i : ℚ))
    | .exact i, w2 => (true, .inexact (i : ℚ), w2)
    | w1, w2 => (false, w1, w2)

/-- Payload comparison of `std::variant::operator==` for operands of the same
alternative (callers have already checked `sameType`). -/
def payloadEq : Value → Value → Bool
| .unknown, .unknown => true
| .bool a, .bool b => a == b
| .exact a, .exact b => a == b
| .inexact a, .inexact b => a == b
| .str a, .str b => a == b
| _, _ => false

/-- `operator==` of SelectorValue.cpp. -/
def valueEq (v1 v2 : Value) : Bool :=
  let p := promoteNumeric v1 v2
  if !(sameType p.2.1 p.2.2) then false
  else payloadEq p.2.1 p.2.2

/-- `operator!=` of SelectorValue.cpp. -/
def valueNe (v1 v2 : Value) : Bool :=
  let p := promoteNumeric v1 v2
  if !(sameType p.2.1 p.2.2) then false
  else !(payloadEq p.2.1 p.2.2)

/-- `operator<` of SelectorValue.cpp: `false` when the operands do not promote
to a common numeric type; the final branch mirrors the unreachable
`assert(false)`. -/
def valueLt (v1 v2 : Value) : Bool :=
  match promoteNumeric v1 v2 with
  | (false, _, _) => false
  | (true, w1, w2) =>
    match w1, w2 with
    | .exact a, .exact b => decide (a < b)
    | .inexact a, .inexact b => decide (a < b)
    | _, _ => false

/-- `operator>` of SelectorValue.cpp. -/
def valueGt (v1 v2 : Value) : Bool :=
  match promoteNumeric v1 v2 with
  | (false, _, _) => false
  | (true, w1, w2) =>
    match w1, w2 with
    | .exact a, .exact b => decide (b < a)
    | .inexact a, .inexact b => decide (b < a)
    | _, _ => false

/-- `operator<=` of SelectorValue.cpp. -/
def valueLe (v1 v2 : Value) : Bool :=
  match promoteNumeric v1 v2 with
  | (false, _, _) => false
  | (true, w1, w2) =>
    match w1, w2 with
    | .exact a, .exact b => decide (a ≤ b)
    | .inexact a, .inexact b => decide (a ≤ b)
    | _, _ => false

/-- `operator>=` of SelectorValue.cpp. -/
def valueGe (v1 v2 : Value) : Bool :=
  match promoteNumeric v1 v2 with
  | (false, _, _) => false
  | (true, w1, w2) =>
    match w1, w2 with
    | .exact a, .exact b => decide (b ≤ a)
    | .inexact a, .inexact b => decide (b ≤ a)
    | _, _ => false

/-- `operator+` of SelectorValue.cpp (signed overflow, which is undefined
behaviour in the source, is modelled as plain `Int` addition; no theorem below
exercises an overflowing case). -/
def valueAdd (v1 v2 : Value) : Value :=
  match promoteNumeric v1 v2 with
  | (false, _, _) => .unknown
  | (true, w1, w2) =>
    match w1, w2 with
    | .exact a, .exact b => .exact (a + b)
    | .inexact a, .inexact b => .inexact (a + b)
    | _, _ => .unknown

/-- `operator-` (binary) of SelectorValue.cpp. -/
def valueSub (v1 v2 : Value) : Value :=
  match promoteNumeric v1 v2 with
  | (false, _, _) => .unknown
  | (true, w1, w2) =>
    match w1, w2 with
    | .exact a, .exact b => .exact (a - b)
    | .inexact a, .inexact b => .inexact (a - b)
    | _, _ => .unknown

/-- `operator*` of SelectorValue.cpp. -/
def valueMult (v1 v2 : Value) : Value :=
  match promoteNumeric v1 v2 with
  | (false, _, _) => .unknown
  | (true, w1, w2) =>
    match w1, w2 with
    | .exact a, .exact b => .exact (a * b)
    | .inexact a, .inexact b => .inexact (a * b)
    | _, _ => .unknown

/-- `operator/` of SelectorValue.cpp. C++ `int64_t` division truncates toward
zero (`Int.tdiv`); division by an exact zero is undefined behaviour in the
source (the x86 build traps with SIGFPE) and is modelled as `none`. An inexact
divisor of zero gives IEEE-754 ±inf or NaN, which the `ℚ` model of `double`
cannot represent; that case is also modelled as `none`, and no theorem below
relies on it. -/
def valueDiv (v1 v2 : Value) : Option Value :=
  match promoteNumeric v1 v2 with
  | (false, _, _) => some .unknown
  | (true, w1, w2) =>
    match w1, w2 with
    | .exact a, .exact b => if b = 0 then none else some (.exact (Int.tdiv a b))
    | .inexact a, .inexact b => if b = 0 then none else some (.inexact (a / b))
    | _, _ => some .unknown

/-- Unary `operator-` of SelectorValue.cpp (the default branch returns
`Value()`, i.e. unknown; negating `INT64_MIN` is undefined behaviour in the
source and is modelled as plain `Int` negation). -/
def valueNegate : Value → Value
| .exact i => .exact (-i)
| .inexact d => .inexact (-d)
| _ => .unknown

/-- `Value::operator BoolOrNone` of SelectorValue.h. -/
def toBN : Value → BoolOrNone
| .bool b => if b then .BN_TRUE else .BN_FALSE
| _ => .BN_UNKNOWN

/-- The `Value(BoolOrNone)` constructor of SelectorValue.h. -/
def bnToValue : BoolOrNone → Value
| .BN_TRUE => .bool true
| .BN_FALSE => .bool false
| .BN_UNKNOWN => .unknown

/-- The three-valued negation used by `Not::eval`. -/
def bnNot : BoolOrNone → BoolOrNone
| .BN_TRUE => .BN_FALSE
| .BN_FALSE => .BN_TRUE
| .BN_UNKNOWN => .BN_UNKNOWN

/-! ## Lexer (SelectorToken.h / SelectorToken.cpp) -/

/-- `TokenType` of SelectorToken.h. -/
inductive TokenType : Type
| T_EOS | T_NULL | T_TRUE | T_FALSE | T_NOT | T_AND | T_OR | T_IN | T_IS
| T_BETWEEN | T_LIKE | T_ESCAPE | T_IDENTIFIER | T_STRING
| T_NUMERIC_EXACT | T_NUMERIC_APPROX
| T_LPAREN | T_RPAREN | T_COMMA | T_PLUS | T_MINUS | T_MULT | T_DIV
| T_EQUAL | T_NEQ | T_LESS | T_GRT | T_LSEQ | T_GREQ
deriving DecidableEq

/-- `Token` of SelectorToken.h (the `tokenStart` iterator, used only for
diagnostics, is not modelled). -/
structure Token where
  type : TokenType
  val : String
deriving DecidableEq

/-- C locale `isspace` on the ASCII inputs the lexer sees. -/
def isSpaceC (c : Char) : Bool :=
  c == ' ' || c == '\t' || c == '\n' || c == '\x0b' || c == '\x0c' || c == '\r'

/-- C locale `isdigit`. -/
def isDigitC (c : Char) : Bool :=
  48 ≤ c.toNat && c.toNat ≤ 57

/-- C locale `isalpha` (ASCII). -/
def isAlphaC (c : Char) : Bool :=
  (65 ≤ c.toNat && c.toNat ≤ 90) || (97 ≤ c.toNat && c.toNat ≤ 122)

/-- C locale `isalnum` (ASCII). -/
def isAlnumC (c : Char) : Bool :=
  isAlphaC c || isDigitC c

/-- C locale `isxdigit`. -/
def isXdigitC (c : Char) : Bool :=
  isDigitC c || (65 ≤ c.toNat && c.toNat ≤ 70) || (97 ≤ c.toNat && c.toNat ≤ 102)

/-- `isIdentifierStart` of SelectorToken.cpp. -/
def isIdentifierStart (c : Char) : Bool :=
  isAlphaC c || c == '_' || c == '$'

/-- `isIdentifierPart` of SelectorToken.cpp. -/
def isIdentifierPart (c : Char) : Bool :=
  isAlnumC c || c == '_' || c == '$' || c == '.'

/-- The `IDENTIFIER` state of `tokenise`: number of further characters
consumed (the state always accepts). -/
def identState : List Char → Nat
| [] => 0
| c :: cs => if isIdentifierPart c then identState cs + 1 else 0

/-- The `OCTDIGIT` state: always accepts as `T_NUMERIC_EXACT`; returns the
number of characters consumed (a trailing `l`/`L` is consumed, `ACCEPT_INC`). -/
def octState : List Char → Nat
| [] => 0
| c :: cs =>
  if c == 'l' || c == 'L' then 1
  else if (isDigitC c && c.toNat < 56) || c == '_' then octState cs + 1
  else 0

/-- The `BINDIGIT` state: always accepts as `T_NUMERIC_EXACT`. -/
def binState : List Char → Nat
| [] => 0
| c :: cs =>
  if c == 'l' || c == 'L' then 1
  else if c == '0' || c == '1' || c == '_' then binState cs + 1
  else 0

/-- The `BINDIGIT_START` state: rejects unless a binary digit follows. -/
def binStartState : List Char → Option Nat
| [] => none
| c :: cs =>
  if c == '0' || c == '1' then some (binState cs + 1)
  else none

/-- The `EXPONENT` state: always accepts as `T_NUMERIC_APPROX`. -/
def expoState : List Char → Nat
| [] => 0
| c :: cs =>
  if isDigitC c then expoState cs + 1
  else if c == 'f' || c == 'F' || c == 'd' || c == 'D' then 1
  else 0

/-- The `EXPONENT_START` state. -/
def expoStartState : List Char → Option Nat
| [] => none
| c :: cs => if isDigitC c then some (expoState cs + 1) else none

/-- The `EXPONENT_SIGN` state. -/
def expoSignState : List Char → Option Nat
| [] => none
| c :: cs =>
  if c == '-' || c == '+' then (expoStartState cs).map (· + 1)
  else if isDigitC c then some (expoState cs + 1)
  else none

/-- The `HEXDIGIT` state (a `p`/`P` exponent switches to
`T_NUMERIC_APPROX`). -/
def hexState : List Char → Option (TokenType × Nat)
| [] => some (.T_NUMERIC_EXACT, 0)
| c :: cs =>
  if c == 'l' || c == 'L' then some (.T_NUMERIC_EXACT, 1)
  else if isXdigitC c || c == '_' then (hexState cs).map (fun p => (p.1, p.2 + 1))
  else if c == 'p' || c == 'P' then
    (expoSignState cs).map (fun n => (.T_NUMERIC_APPROX, n + 1))
  else some (.T_NUMERIC_EXACT, 0)

/-- The `HEXDIGIT_START` state. -/
def hexStartState : List Char → Option (TokenType × Nat)
| [] => none
| c :: cs =>
  if isXdigitC c then (hexState cs).map (fun p => (p.1, p.2 + 1))
  else none

/-- The `DECIMAL` state: always `T_NUMERIC_APPROX` unless an exponent
rejects. -/
def decimalState : List Char → Option Nat
| [] => some 0
| c :: cs =>
  if isDigitC c || c == '_' then (decimalState cs).map (· + 1)
  else if c == 'e' || c == 'E' then (expoSignState cs).map (· + 1)
  else if c == 'f' || c == 'F' || c == 'd' || c == 'D' then some 1
  else some 0

/-- The `DECIMAL_START` state. -/
def decimalStartState : List Char → Option Nat
| [] => none
| c :: cs => if isDigitC c then (decimalState cs).map (· + 1) else none

/-- The `DIGIT` state. -/
def digitState : List Char → Option (TokenType × Nat)
| [] => some (.T_NUMERIC_EXACT, 0)
| c :: cs =>
  if c == 'l' || c == 'L' then some (.T_NUMERIC_EXACT, 1)
  else if c == 'f' || c == 'F' || c == 'd' || c == 'D' then
    some (.T_NUMERIC_APPROX, 1)
  else if isDigitC c || c == '_' then (digitState cs).map (fun p => (p.1, p.2 + 1))
  else if c == '.' then (decimalState cs).map (fun n => (.T_NUMERIC_APPROX, n + 1))
  else if c == 'e' || c == 'E' then
    (expoSignState cs).map (fun n => (.T_NUMERIC_APPROX, n + 1))
  else some (.T_NUMERIC_EXACT, 0)

/-- The `ZERO` state (entered after an initial `0`; note the fall-through to
`OCTDIGIT` without consuming the current character). -/
def zeroState : List Char → Option (TokenType × Nat)
| [] => some (.T_NUMERIC_EXACT, 0)
| c :: cs =>
  if c == '.' then (decimalState cs).map (fun n => (.T_NUMERIC_APPROX, n + 1))
  else if c == 'x' || c == 'X' then (hexStartState cs).map (fun p => (p.1, p.2 + 1))
  else if c == 'b' || c == 'B' then
    (binStartState cs).map (fun n => (.T_NUMERIC_EXACT, n + 1))
  else some (.T_NUMERIC_EXACT, octState (c :: cs))

/-- The reserved-word table of `tokeniseReservedWord` (the case-insensitive
`equal_range` lookup is modelled by direct comparison on the lowercased
lexeme). -/
def toLowerC (c : Char) : Char :=
  if 65 ≤ c.toNat ∧ c.toNat ≤ 90 then Char.ofNat (c.toNat + 32) else c

/-- `tokeniseReservedWord` of SelectorToken.cpp: retype an identifier whose
lexeme matches a reserved word case-insensitively. -/
def rwType (s : String) : Option TokenType :=
  let l := String.mk (s.data.map toLowerC)
  if l == "and" then some .T_AND
  else if l == "between" then some .T_BETWEEN
  else if l == "escape" then some .T_ESCAPE
  else if l == "false" then some .T_FALSE
  else if l == "in" then some .T_IN
  else if l == "is" then some .T_IS
  else if l == "like" then some .T_LIKE
  else if l == "not" then some .T_NOT
  else if l == "null" then some .T_NULL
  else if l == "or" then some .T_OR
  else if l == "true" then some .T_TRUE
  else none

/-- The scan at the heart of `processString`: the input starts just after the
opening quote; returns the token content (doubled quotes collapsed) and the
number of input characters consumed, or `none` for an unterminated literal. -/
def stringBody (qc : Char) : List Char → Option (List Char × Nat)
| [] => none
| [c] => if c == qc then some ([], 1) else none
| c :: d :: ds =>
  if c == qc then
    if d == qc then (stringBody qc ds).map (fun p => (qc :: p.1, p.2 + 2))
    else some ([], 1)
  else (stringBody qc (d :: ds)).map (fun p => (c :: p.1, p.2 + 1))

/-- `processString` of SelectorToken.cpp: the input still includes the opening
quote character. -/
def processString (qc : Char) (tt : TokenType) : List Char → Option (Token × List Char)
| [] => none
| _ :: rest =>
  (stringBody qc rest).map fun p =>
    ({ type := tt, val := String.mk p.1 }, rest.drop p.2)

/-- `tokenise` of SelectorToken.cpp: skip whitespace, then run the hand-written
state machine. Returns the token and the remaining input, or `none` when the
machine reaches `REJECT` (the caller throws `TokenException`). -/
def startTok : List Char → Option (Token × List Char)
| [] => some ({ type := .T_EOS, val := "<END>" }, [])
| c :: cs =>
  if isSpaceC c then startTok cs
  else if c == '(' then some ({ type := .T_LPAREN, val := String.mk [c] }, cs)
  else if c == ')' then some ({ type := .T_RPAREN, val := String.mk [c] }, cs)
  else if c == ',' then some ({ type := .T_COMMA, val := String.mk [c] }, cs)
  else if c == '+' then some ({ type := .T_PLUS, val := String.mk [c] }, cs)
  else if c == '-' then some ({ type := .T_MINUS, val := String.mk [c] }, cs)
  else if c == '*' then some ({ type := .T_MULT, val := String.mk [c] }, cs)
  else if c == '/' then some ({ type := .T_DIV, val := String.mk [c] }, cs)
  else if c == '=' then some ({ type := .T_EQUAL, val := String.mk [c] }, cs)
  else if c == '<' then
    match cs with
    | '>' :: rest => some ({ type := .T_NEQ, val := "<>" }, rest)
    | '=' :: rest => some ({ type := .T_LSEQ, val := "<=" }, rest)
    | _ => some ({ type := .T_LESS, val := "<" }, cs)
  else if c == '>' then
    match cs with
    | '=' :: rest => some ({ type := .T_GREQ, val := ">=" }, rest)
    | _ => some ({ type := .T_GRT, val := ">" }, cs)
  else if isIdentifierStart c then
    let n := identState cs
    let v := String.mk (c :: cs.take n)
    let t : Token := { type := .T_IDENTIFIER, val := v }
    some (match rwType v with
          | some tt => { t with type := tt }
          | none => t, cs.drop n)
  else if c == '\x27' then processString '\x27' .T_STRING (c :: cs)
  else if c == '"' then processString '"' .T_IDENTIFIER (c :: cs)
  else if c == '0' then
    (zeroState cs).map fun p =>
      ({ type := p.1, val := String.mk ((c :: cs).take (p.2 + 1)) }, cs.drop p.2)
  else if isDigitC c then
    (digitState cs).map fun p =>
      ({ type := p.1, val := String.mk ((c :: cs).take (p.2 + 1)) }, cs.drop p.2)
  else if c == '.' then
    (decimalStartState cs).map fun n =>
      ({ type := .T_NUMERIC_APPROX, val := String.mk ((c :: cs).take (n + 1)) }, cs.drop n)
  else none

/-- The buffering `Tokeniser` of SelectorToken.cpp with its unbounded
push-back buffer. -/
structure Tokeniser where
  toks : List Token
  tokp : Nat
  rest : List Char

/-- Error outcomes of compilation: `lexErr` models `TokenException`
("Found illegal character"), `parseErr` models the `std::range_error` thrown
by `throwParseError`, and `fuelErr` is a modelling artifact of the explicit
recursion bound given to the recursive-descent parser (unreachable for the
inputs any theorem below touches). -/
inductive Err : Type
| lexErr
| parseErr (msg : String)
| fuelErr
deriving DecidableEq

/-- `Tokeniser::nextToken`: deliver from the buffer, repeat a buffered `T_EOS`
forever, otherwise lex one more token (a lexing failure throws
`TokenException`). -/
def nextToken (tk : Tokeniser) : Except Err (Token × Tokeniser) :=
  if h : tk.tokp < tk.toks.length then
    .ok (tk.toks.get ⟨tk.tokp, h⟩, { tk with tokp := tk.tokp + 1 })
  else if tk.tokp > 0 then
    match tk.toks.get? (tk.tokp - 1) with
    | some t =>
      if t.type = .T_EOS then .ok (t, tk)
      else
        match startTok tk.rest with
        | some (t2, r) =>
          .ok (t2, { toks := tk.toks ++ [t2], tokp := tk.tokp + 1, rest := r })
        | none => .error .lexErr
    | none => .error .lexErr
  else
    match startTok tk.rest with
    | some (t2, r) =>
      .ok (t2, { toks := tk.toks ++ [t2], tokp := tk.tokp + 1, rest := r })
    | none => .error .lexErr

/-- `Tokeniser::returnTokens`. -/
def returnTokens (tk : Tokeniser) (n : Nat := 1) : Tokeniser :=
  { tk with tokp := tk.tokp - n }

/-- `throwParseError` of SelectorExpression.cpp: return one token, refetch it
for the diagnostic, and throw `std::range_error`. -/
def throwParseError (tk : Tokeniser) (msg : String) : Err :=
  match nextToken (returnTokens tk 1) with
  | .ok (t, _) => .parseErr ("Illegal selector: \x27" ++ t.val ++ "\x27: " ++ msg)
  | .error e => e

/-! ## Numeric literal decoding (`strtoull` / `strtod` and their callers) -/

/-- Numeric value of an ASCII digit or letter-digit (used for bases up to 16). -/
def digitVal (c : Char) : Nat :=
  if 48 ≤ c.toNat ∧ c.toNat ≤ 57 then c.toNat - 48
  else if 97 ≤ c.toNat ∧ c.toNat ≤ 102 then c.toNat - 87
  else if 65 ≤ c.toNat ∧ c.toNat ≤ 70 then c.toNat - 55
  else 16

/-- Whether `c` is a valid digit in base `b` (b ∈ {2, 8, 10, 16}). -/
def validDigit (b : Nat) (c : Char) : Bool :=
  digitVal c < b

/-- Greedy digit accumulation of `strtoull`: convert the longest prefix of
valid digits for the base. -/
def accDigits (b : Nat) : List Char → Nat → Nat
| [], acc => acc
| c :: cs, acc =>
  if validDigit b c then accDigits b cs (acc * b + digitVal c)
  else acc

/-- Modelled from the spec: C `strtoull` as called by `parseExactNumeric`
(no leading whitespace or sign ever occurs in its inputs). Base 0
auto-detects: `0x`/`0X` prefix means 16, a leading `0` means 8, otherwise 10.
The longest valid-digit prefix is converted; a value exceeding 2^64 − 1 yields
`(2^64 − 1, true)`, the `true` standing for `errno == ERANGE`. -/
def strtoullM (s : List Char) (base : Nat) : Nat × Bool :=
  let p : Nat × List Char :=
    if base = 0 then
      if s.head? = some '0' then
        if (s.get? 1).getD '\x00' = 'x' ∨ (s.get? 1).getD '\x00' = 'X' then
          (16, s.drop 2)
        else (8, s)
      else (10, s)
    else (base, s)
  let v := accDigits p.1 p.2 0
  if v ≤ 18446744073709551615 then (v, false) else (18446744073709551615, true)

/-- Two's-complement reinterpretation of a `uint64_t` value as `int64_t` (the
implementation-defined conversion every mainstream compiler performs). -/
def toInt64 (n : Nat) : Int :=
  if n < 9223372036854775808 then (n : Int) else (n : Int) - 18446744073709551616

/-- Modelled from the spec: C `strtod` on the lexer's approximate-numeric
lexemes, read exactly into `ℚ`. The decimal forms `d*.d*`, `.d+`, `d+e±d` and
the hex forms `0xh+p±d` are interpreted; conversion stops at the first
unexpected character (so trailing `f`/`F`/`d`/`D`/`l` suffixes are ignored).
The C version rounds to the nearest `double` and reports over/underflow via
`errno`; neither rounding nor range errors are modelled, and no theorem below
depends on an inexact literal's numeric value. -/
def takeDigits (b : Nat) (xs : List Char) : List Char × List Char :=
  match xs with
  | [] => ([], [])
  | c :: cs =>
    if validDigit b c then
      let p := takeDigits b cs
      (c :: p.1, p.2)
    else ([], c :: cs)

/-- Value of a digit list in base `b` (all characters assumed valid). -/
def digitsToNat (b : Nat) (xs : List Char) : Nat :=
  accDigits b xs 0

/-- Decimal/hex exponent application for the `strtod` model. -/
def applyExpo (mant : ℚ) (base : Nat) (negExpo : Bool) (e : Nat) : ℚ :=
  if negExpo then mant / ((base : ℚ) ^ e) else mant * ((base : ℚ) ^ e)

/-- Exponent part (`e±d` or `p±d`) for the `strtod` model: returns
(negative?, magnitude). -/
def readExpo (xs : List Char) : Bool × Nat :=
  match xs with
  | '-' :: r => (true, digitsToNat 10 (takeDigits 10 r).1)
  | '+' :: r => (false, digitsToNat 10 (takeDigits 10 r).1)
  | r => (false, digitsToNat 10 (takeDigits 10 r).1)

/-- The `strtod` model itself (see `takeDigits` for scope). -/
def strtodQ (s : List Char) : ℚ :=
  match s with
  | '0' :: c :: r =>
    if c = 'x' ∨ c = 'X' then
      let ip := takeDigits 16 r
      let mant : ℚ := (digitsToNat 16 ip.1 : ℚ)
      match ip.2 with
      | 'p' :: e | 'P' :: e =>
        let ex := readExpo e
        applyExpo mant 2 ex.1 ex.2
      | _ => mant
    else strtodDec ('0' :: c :: r)
  | r => strtodDec r
where
  strtodDec (xs : List Char) : ℚ :=
    let ip := takeDigits 10 xs
    let intPart : ℚ := (digitsToNat 10 ip.1 : ℚ)
    let afterInt := ip.2
    let p : ℚ × List Char :=
      match afterInt with
      | '.' :: r =>
        let fp := takeDigits 10 r
        (intPart + (digitsToNat 10 fp.1 : ℚ) / ((10 : ℚ) ^ fp.1.length), fp.2)
      | r => (intPart, r)
    match p.2 with
    | 'e' :: e | 'E' :: e =>
      let ex := readExpo e
      applyExpo p.1 10 ex.1 ex.2
    | _ => p.1

/-! ## Expression tree (SelectorExpression.cpp) -/

/-- The comparison operator singletons (`Eq`, `Neq`, `Ls`, `Gr`, `Lseq`,
`Greq`). -/
inductive CmpOp : Type
| eqOp | neqOp | lsOp | grOp | lseqOp | greqOp
deriving DecidableEq

/-- The arithmetic operator singletons (`Add`, `Sub`, `Mult`, `Div`). -/
inductive ArithOp : Type
| add | sub | mult | div
deriving DecidableEq

/-- The unary boolean operator singletons (`IsNull`, `IsNonNull`, `Not`). -/
inductive UnBoolOp : Type
| isNull | isNonNull | notOp
deriving DecidableEq

/-- The polymorphic expression tree of SelectorExpression.cpp, one constructor
per concrete node class. `like` stores the regex string the `LikeExpression`
constructor computes at parse time. -/
inductive Tree : Type
| literal (v : Value)
| strLit (s : String)
| ident (s : String)
| cmp (op : CmpOp) (e1 e2 : Tree)
| orE (e1 e2 : Tree)
| andE (e1 e2 : Tree)
| unBool (op : UnBoolOp) (e : Tree)
| like (e : Tree) (reString : String)
| between (e l u : Tree)
| inE (e : Tree) (l : List Tree)
| notIn (e : Tree) (l : List Tree)
| arith (op : ArithOp) (e1 e2 : Tree)
| neg (e : Tree)

/-- The character-translation loop of `LikeExpression::toRegex`: the escape
check runs before the switch, `%`/`_` honour a pending escape, `]` and `-` are
emitted inside one-character classes, `\ ^ $ . * [` fall through to a
backslash escape, and everything else is emitted verbatim. -/
def toRegexLoop (e : Option Char) (doEscape : Bool) : List Char → List Char
| [] => []
| c :: cs =>
  if e = some c then toRegexLoop e true cs
  else
    (if c == '%' then (if doEscape then [c] else ['.', '*'])
     else if c == '_' then (if doEscape then [c] else ['.'])
     else if c == ']' then ['[', ']', ']']
     else if c == '-' then ['[', '-', ']']
     else if c == '\\' || c == '^' || c == '$' || c == '.' || c == '*' || c == '[' then
       ['\\', c]
     else [c]) ++ toRegexLoop e false cs

/-- `LikeExpression::toRegex` of SelectorExpression.cpp. The
`std::logic_error` thrown for an escape string longer than one character is
modelled as `none` (the parser rejects such escapes first). -/
def toRegex (s escape : String) : Option String :=
  if escape.length > 1 then none
  else
    some (String.mk ('^' :: (toRegexLoop escape.data.head? false s.data ++ ['$'])))

/-- Modelled from the spec: `std::regex_match` (§4.4) — the subject must match
the entire anchored regex. Only the constructs `toRegex` emits are
interpreted: the `^`/`$` anchors, `.`, `.*`, one-character classes `[c]`,
backslash escapes, and literal characters (characters such as `+ ? | ( )`
that `toRegex` passes through verbatim keep their ECMAScript meaning in the
C++ engine but are treated as literals here). No claim below is settled
against this model. -/
def reMatchF : Nat → List Char → List Char → Bool
| 0, _, _ => false
| n + 1, ps, s =>
  match ps, s with
  | [], [] => true
  | [], _ :: _ => false
  | '^' :: pr, str => reMatchF n pr str
  | ['$'], str => str.isEmpty
  | '.' :: '*' :: pr, str => reStarF n pr str
  | '.' :: _, [] => false
  | '.' :: pr, _ :: sr => reMatchF n pr sr
  | '\\' :: _ :: _, [] => false
  | '\\' :: pc :: pr, sc :: sr => pc == sc && reMatchF n pr sr
  | '[' :: _ :: ']' :: _, [] => false
  | '[' :: pc :: ']' :: pr, sc :: sr => pc == sc && reMatchF n pr sr
  | _ :: _, [] => false
  | pc :: pr, sc :: sr => pc == sc && reMatchF n pr sr
where
  reStarF : Nat → List Char → List Char → Bool
  | 0, _, _ => false
  | n + 1, pr, str =>
    reMatchF n pr str ||
      (match str with
       | [] => false
       | _ :: sr => reStarF n pr sr)

/-- Entry point of the `std::regex_match` model. -/
def reMatch (pattern subject : String) : Bool :=
  reMatchF (2 * (pattern.length + subject.length) + 8) pattern.data subject.data

/-- The base selection of `Parse::parseExactNumeric` (SelectorExpression.cpp)
on the underscore-stripped lexeme — note the unconditional
`if (s[0]=='0') base = 8;` that follows the hex/binary arms and can reset an
already-chosen base. `std::string::operator[]` at the size index reads the
terminating NUL, modelled by a `'\x00'` default. -/
def exactBase (s : List Char) : Nat × List Char :=
  let c1 := (s.get? 1).getD '\x00'
  let p : Nat × List Char :=
    if c1 = 'b' ∨ c1 = 'B' then (2, s.drop 2)
    else if c1 = 'x' ∨ c1 = 'X' then (16, s.drop 2)
    else (0, s)
  if (p.2.get? 0).getD '\x00' = '0' then (8, p.2) else p

/-- `Parse::parseExactNumeric` of SelectorExpression.cpp: strip `_`, pick the
base (see `exactBase`), convert via `strtoull`, and range-check. For bases
other than 0 any converted value up to 2^64 − 1 is accepted and reinterpreted
two's-complement; for base 0 (plain decimal) values above `INT64_MAX` are
rejected unless the literal is negated and the value is exactly 2^63, which
yields `INT64_MIN`. `none` models the C++
`error = "integer literal too big"; return 0;` path. (The negation `-r` is
C++ signed negation; the only input where it would overflow, a negated based
literal decoding to `INT64_MIN`, is undefined behaviour in the source and no
theorem below exercises it.) -/
def parseExactNumeric (tokval : String) (negate : Bool) : Option Tree :=
  let s := tokval.data.filter (fun c => c ≠ '_')
  let pb := exactBase s
  let v := strtoullM pb.2 pb.1
  if !v.2 ∧ (pb.1 ≠ 0 ∨ v.1 ≤ 9223372036854775807) then
    let r : Int := toInt64 v.1
    some (.literal (.exact (if negate then -r else r)))
  else if negate ∧ v.1 = 9223372036854775808 then
    some (.literal (.exact (-9223372036854775808)))
  else none

/-- `Parse::parseApproxNumeric` of SelectorExpression.cpp: strip `_` and
convert via `strtod`. The C++ `errno` over/underflow check (message
"floating literal overflow/underflow") never fires in the `ℚ` model of
`double`, which has no finite range. -/
def parseApproxNumeric (tokval : String) : Option Tree :=
  let s := tokval.data.filter (fun c => c ≠ '_')
  some (.literal (.inexact (strtodQ s)))

/-! ## Pretty printer (the `repr` virtuals) -/

/-- `operator<<(ostream&, const Value&)` of SelectorValue.cpp. The `double`
formatting of the C++ stream is modelled by printing the `ℚ` payload (only
the shape of the output, never an inexact literal's text, is relied on
below). -/
def showValue : Value → String
| .unknown => "UNKNOWN"
| .bool b => "BOOL:" ++ (if b then "true" else "false")
| .exact i => "EXACT:" ++ toString i
| .inexact d => "APPROX:" ++ toString d
| .str s => "STRING:\x27" ++ s ++ "\x27"

/-- `ComparisonOperator::repr` for each singleton. -/
def showCmpOp : CmpOp → String
| .eqOp => "="
| .neqOp => "<>"
| .lsOp => "<"
| .grOp => ">"
| .lseqOp => "<="
| .greqOp => ">="

/-- `ArithmeticOperator::repr` for each singleton. -/
def showArithOp : ArithOp → String
| .add => "+"
| .sub => "-"
| .mult => "*"
| .div => "/"

/-- `UnaryBooleanOperator::repr` for each singleton. -/
def showUnBoolOp : UnBoolOp → String
| .isNull => "IsNull"
| .isNonNull => "IsNonNull"
| .notOp => "NOT"

mutual

/-- The `repr` virtuals of the concrete node classes, assembled. -/
def reprTree : Tree → String
| .literal v => showValue v
| .strLit s => "\x27" ++ s ++ "\x27"
| .ident s => "I:" ++ s
| .cmp op e1 e2 => "(" ++ reprTree e1 ++ showCmpOp op ++ reprTree e2 ++ ")"
| .orE e1 e2 => "(" ++ reprTree e1 ++ " OR " ++ reprTree e2 ++ ")"
| .andE e1 e2 => "(" ++ reprTree e1 ++ " AND " ++ reprTree e2 ++ ")"
| .unBool op e => showUnBoolOp op ++ "(" ++ reprTree e ++ ")"
| .like e re => reprTree e ++ " REGEX_MATCH \x27" ++ re ++ "\x27"
| .between e l u =>
  reprTree e ++ " BETWEEN " ++ reprTree l ++ " AND " ++ reprTree u
| .inE e ls => reprTree e ++ " IN (" ++ reprTreeList ls
| .notIn e ls => reprTree e ++ " NOT IN (" ++ reprTreeList ls
| .arith op e1 e2 => "(" ++ reprTree e1 ++ showArithOp op ++ reprTree e2 ++ ")"
| .neg e => "-(" ++ reprTree e ++ ")"

/-- The element loop of `InExpression::repr` / `NotInExpression::repr`:
`", "` between elements, `")"` after the last (and, faithfully to the C++
loop, nothing at all for an empty list — the parser never builds one). -/
def reprTreeList : List Tree → String
| [] => ""
| [t] => reprTree t ++ ")"
| t :: ts => reprTree t ++ ", " ++ reprTreeList ts

end

/-! ## Evaluator -/

/-- Modelled from the spec: the environment interface (`SelectorEnv.h` is not
in the sources) — an opaque map with the single operation
`value(identifier) → Value` (§3, §6.2); absent identifiers yield `Unknown`,
which a total function into `Value` already covers. -/
def Env : Type := String → Value

/-- `booleval` of SelectorExpression.cpp, with the two sub-expression results
passed in evaluated form: if the first operand is `Unknown` the C++ never
evaluates the second, so its result (even a trap, `none`) is ignored. -/
def boolevalV (op : Value → Value → Bool) (m1 m2 : Option Value) : Option BoolOrNone :=
  match m1 with
  | none => none
  | some v1 =>
    if unknownV v1 then some .BN_UNKNOWN
    else
      match m2 with
      | none => none
      | some v2 =>
        if unknownV v2 then some .BN_UNKNOWN
        else some (if op v1 v2 then .BN_TRUE else .BN_FALSE)

/-- The value-level function each `ComparisonOperator` singleton passes to
`booleval`. -/
def cmpFn : CmpOp → Value → Value → Bool
| .eqOp => valueEq
| .neqOp => valueNe
| .lsOp => valueLt
| .grOp => valueGt
| .lseqOp => valueLe
| .greqOp => valueGe

mutual

/-- The `eval` virtual, over every node class. For the boolean node classes,
`BoolExpression::eval` wraps `eval_bool`'s result back into a `Value`; for
the value node classes, a node's `eval_bool` is the default
`ValueExpression::eval_bool`, i.e. `toBN` of its `eval` — both directions of
the C++ virtual dispatch reduce to that identity, which is how the
`eval_bool` calls on child expressions appear below as `toBN` of `evalV`.
`none` propagates the division-by-zero trap. -/
def evalV : Tree → Env → Option Value
| .literal v, _ => some v
| .strLit s, _ => some (.str s)
| .ident s, env => some (env s)
| .cmp op e1 e2, env =>
  (boolevalV (cmpFn op) (evalV e1 env) (evalV e2 env)).map bnToValue
| .orE e1 e2, env =>
  match (evalV e1 env).map toBN with
  | none => none
  | some bn1 =>
    if bn1 = .BN_TRUE then some (bnToValue .BN_TRUE)
    else
      match (evalV e2 env).map toBN with
      | none => none
      | some bn2 =>
        if bn2 = .BN_TRUE then some (bnToValue .BN_TRUE)
        else if bn1 = .BN_FALSE ∧ bn2 = .BN_FALSE then some (bnToValue .BN_FALSE)
        else some (bnToValue .BN_UNKNOWN)
| .andE e1 e2, env =>
  match (evalV e1 env).map toBN with
  | none => none
  | some bn1 =>
    if bn1 = .BN_FALSE then some (bnToValue .BN_FALSE)
    else
      match (evalV e2 env).map toBN with
      | none => none
      | some bn2 =>
        if bn2 = .BN_FALSE then some (bnToValue .BN_FALSE)
        else if bn1 = .BN_TRUE ∧ bn2 = .BN_TRUE then some (bnToValue .BN_TRUE)
        else some (bnToValue .BN_UNKNOWN)
| .unBool .isNull e, env =>
  (evalV e env).map fun v =>
    bnToValue (if unknownV v then .BN_TRUE else .BN_FALSE)
| .unBool .isNonNull e, env =>
  (evalV e env).map fun v =>
    bnToValue (if unknownV v then .BN_FALSE else .BN_TRUE)
| .unBool .notOp e, env =>
  match (evalV e env).map toBN with
  | none => none
  | some bn => some (bnToValue (bnNot bn))
| .like e re, env =>
  (evalV e env).map fun v =>
    match v with
    | .str s => bnToValue (if reMatch re s then .BN_TRUE else .BN_FALSE)
    | _ => bnToValue .BN_UNKNOWN
| .between e l u, env =>
  match evalV e env with
  | none => none
  | some ve =>
    match evalV l env with
    | none => none
    | some vl =>
      match evalV u env with
      | none => none
      | some vu =>
        some (bnToValue
          (if unknownV ve || unknownV vl || unknownV vu then .BN_UNKNOWN
           else if valueGe ve vl && valueLe ve vu then .BN_TRUE
           else .BN_FALSE))
| .inE e ls, env =>
  match evalV e env with
  | none => none
  | some ve =>
    if unknownV ve then some (bnToValue .BN_UNKNOWN)
    else (inListLoop ls env ve .BN_FALSE).map bnToValue
| .notIn e ls, env =>
  match evalV e env with
  | none => none
  | some ve =>
    if unknownV ve then some (bnToValue .BN_UNKNOWN)
    else (notInListLoop ls env ve .BN_TRUE).map bnToValue
| .arith op e1 e2, env =>
  match evalV e1 env with
  | none => none
  | some v1 =>
    match evalV e2 env with
    | none => none
    | some v2 =>
      match op with
      | .add => some (valueAdd v1 v2)
      | .sub => some (valueSub v1 v2)
      | .mult => some (valueMult v1 v2)
      | .div => valueDiv v1 v2
| .neg e, env => (evalV e env).map valueNegate

/-- The element loop of `InExpression::eval_bool`: `r` is the running result
(`BN_FALSE` initially, `BN_UNKNOWN` after any unknown element); an equal
element returns `BN_TRUE` immediately, skipping the rest of the list. -/
def inListLoop : List Tree → Env → Value → BoolOrNone → Option BoolOrNone
| [], _, _, r => some r
| li :: ls, env, ve, r =>
  match evalV li env with
  | none => none
  | some v =>
    if unknownV v then inListLoop ls env ve .BN_UNKNOWN
    else if valueEq ve v then some .BN_TRUE
    else inListLoop ls env ve r

/-- The element loop of `NotInExpression::eval_bool`, including its
type-incompatibility rule: a known element whose type neither matches the
subject's nor is numeric alongside it turns the running `BN_TRUE` into
`BN_FALSE`. -/
def notInListLoop : List Tree → Env → Value → BoolOrNone → Option BoolOrNone
| [], _, _, r => some r
| li :: ls, env, ve, r =>
  match evalV li env with
  | none => none
  | some v =>
    if unknownV v then notInListLoop ls env ve .BN_UNKNOWN
    else if r ≠ .BN_UNKNOWN && !(sameType ve v) && !(numeric ve && numeric v) then
      notInListLoop ls env ve .BN_FALSE
    else if valueEq ve v then some .BN_FALSE
    else notInListLoop ls env ve r

end

/-- The `eval_bool` virtual: equal to `toBN` of `eval` for every node class
(see the comment on `evalV`). -/
def evalBool (t : Tree) (env : Env) : Option BoolOrNone :=
  (evalV t env).map toBN

/-- `ConcreteExpression::eval`: anything but `BN_TRUE` — including
`BN_UNKNOWN` — is `false` at the top-level boolean API. -/
def topEval (t : Tree) (env : Env) : Option Bool :=
  (evalBool t env).map fun bn => if bn = .BN_TRUE then true else false

/-! ## Recursive-descent parser (the `Parse` class)

The parser state carries the tokeniser and the `Parse::error` string (the
C++ member is written on the null-returning error paths; the only code that
reads it, `make_selector`'s `if (!b)` branch, is unreachable — see
`make_selector` below). Mutual recursion is bounded by an explicit fuel
argument; the C++ recursion is bounded by the input instead, and
`make_selector` passes fuel well beyond what any input of its length can
consume, so `Err.fuelErr` is unreachable from `make_selector` for the inputs
examined in the theorems. -/

/-- The parser state: tokeniser plus the `Parse::error` member. -/
structure ParseSt where
  tk : Tokeniser
  err : String

/-- `tokeniser.nextToken()` lifted to the parser state. -/
def nextT (s : ParseSt) : Except Err (Token × ParseSt) :=
  match nextToken s.tk with
  | .ok (t, tk2) => .ok (t, { s with tk := tk2 })
  | .error e => .error e

/-- `tokeniser.returnTokens()` lifted to the parser state. -/
def retT (s : ParseSt) : ParseSt :=
  { s with tk := returnTokens s.tk 1 }

/-- The C++ `error = msg; return 0;` idiom. -/
def failP {α : Type} (s : ParseSt) (msg : String) :
    Except Err (Option α × ParseSt) :=
  .ok (none, { s with err := msg })

/-- The `LikeExpression` construction shared by the two `T_LIKE` arms of
`specialComparisons` (the constructor's regex translation runs at parse
time; its `std::logic_error` is unreachable behind the parser's escape
checks). -/
def mkLike (e1 : Tree) (likeStr escape : String) (negated : Bool) (s : ParseSt) :
    Except Err (Option Tree × ParseSt) :=
  match toRegex likeStr escape with
  | some re =>
    let l : Tree := .like e1 re
    .ok (some (if negated then .unBool .notOp l else l), s)
  | none => .error (.parseErr "Internal error")

/-- `Parse::primaryExpression`. -/
def primaryExpression (s : ParseSt) : Except Err (Option Tree × ParseSt) := do
  let (t, s1) ← nextT s
  match t.type with
  | .T_IDENTIFIER => .ok (some (.ident t.val), s1)
  | .T_STRING => .ok (some (.strLit t.val), s1)
  | .T_FALSE => .ok (some (.literal (.bool false)), s1)
  | .T_TRUE => .ok (some (.literal (.bool true)), s1)
  | .T_NUMERIC_EXACT =>
    match parseExactNumeric t.val false with
    | some e => .ok (some e, s1)
    | none => failP s1 "integer literal too big"
  | .T_NUMERIC_APPROX =>
    match parseApproxNumeric t.val with
    | some e => .ok (some e, s1)
    | none => failP s1 "floating literal overflow/underflow"
  | _ => failP s1 "expected literal or identifier"

/-- The record of the parser's mutually recursive procedures. The C++
recursion is bounded by its input; here the mutual knot is tied by iterating
`packStep` with `Nat.rec` over an explicit budget (see `parserAt`), which
keeps each procedure's body a verbatim transcription while making one
recursive call cost one record projection. -/
structure ParserPack : Type where
  orExpression : ParseSt → Except Err (Option Tree × ParseSt)
  orLoop : Tree → ParseSt → Except Err (Option Tree × ParseSt)
  andExpression : ParseSt → Except Err (Option Tree × ParseSt)
  andLoop : Tree → ParseSt → Except Err (Option Tree × ParseSt)
  comparisonExpression : ParseSt → Except Err (Option Tree × ParseSt)
  specialComparisons : ParseSt → Tree → Bool → Except Err (Option Tree × ParseSt)
  inElems : ParseSt → List Tree → Except Err (Option (List Tree) × ParseSt)
  addExpression : ParseSt → Except Err (Option Tree × ParseSt)
  addLoop : Tree → ParseSt → Except Err (Option Tree × ParseSt)
  multiplyExpression : ParseSt → Except Err (Option Tree × ParseSt)
  multLoop : Tree → ParseSt → Except Err (Option Tree × ParseSt)
  unaryArithExpression : ParseSt → Except Err (Option Tree × ParseSt)

/-- The exhausted-budget pack (unreachable from `make_selector` for the
inputs any theorem touches; see the section comment). -/
def outOfFuel : ParserPack where
  orExpression := fun _ => .error .fuelErr
  orLoop := fun _ _ => .error .fuelErr
  andExpression := fun _ => .error .fuelErr
  andLoop := fun _ _ => .error .fuelErr
  comparisonExpression := fun _ => .error .fuelErr
  specialComparisons := fun _ _ _ => .error .fuelErr
  inElems := fun _ _ => .error .fuelErr
  addExpression := fun _ => .error .fuelErr
  addLoop := fun _ _ => .error .fuelErr
  multiplyExpression := fun _ => .error .fuelErr
  multLoop := fun _ _ => .error .fuelErr
  unaryArithExpression := fun _ => .error .fuelErr

/-- One budget step: each field is the corresponding `Parse` member function,
transcribed from SelectorExpression.cpp, with `p.…` for its recursive calls.
`orExpression`/`andExpression` parse one operand and enter their
`while (nextToken().type==T_OR/T_AND)` loops; `comparisonExpression` handles
`NOT`, `IS [NOT] NULL` (whose `switch` falls through to the error message
when `IS NOT` is not followed by `NULL`, exactly as in the C++), the special
comparisons and the six comparison operators; `specialComparisons` handles
`LIKE`/`BETWEEN`/`IN` with optional negation; `inElems` is the
`do … while (T_COMMA)` element loop with the closing-parenthesis check;
`unaryArithExpression` handles parentheses, unary `+` (a no-op), the special
case `- <exact numeric literal>`, general unary minus, and the fall-through
to `primaryExpression`. -/
def packStep (p : ParserPack) : ParserPack where
  orExpression := fun s => do
    let (oe, s1) ← p.andExpression s
    match oe with
    | none => .ok (none, s1)
    | some e => p.orLoop e s1
  orLoop := fun e s => do
    let (t, s1) ← nextT s
    if t.type = .T_OR then do
      let (oe2, s2) ← p.andExpression s1
      match oe2 with
      | none => .ok (none, s2)
      | some e2 => p.orLoop (.orE e e2) s2
    else .ok (some e, retT s1)
  andExpression := fun s => do
    let (oe, s1) ← p.comparisonExpression s
    match oe with
    | none => .ok (none, s1)
    | some e => p.andLoop e s1
  andLoop := fun e s => do
    let (t, s1) ← nextT s
    if t.type = .T_AND then do
      let (oe2, s2) ← p.comparisonExpression s1
      match oe2 with
      | none => .ok (none, s2)
      | some e2 => p.andLoop (.andE e e2) s2
    else .ok (some e, retT s1)
  comparisonExpression := fun s => do
    let (t, s1) ← nextT s
    if t.type = .T_NOT then do
      let (oe, s2) ← p.comparisonExpression s1
      match oe with
      | none => .ok (none, s2)
      | some e => .ok (some (.unBool .notOp e), s2)
    else do
      let (oe1, s2) ← p.addExpression (retT s1)
      match oe1 with
      | none => .ok (none, s2)
      | some e1 => do
        let (t2, s3) ← nextT s2
        match t2.type with
        | .T_IS => do
          let (t3, s4) ← nextT s3
          match t3.type with
          | .T_NULL => .ok (some (.unBool .isNull e1), s4)
          | .T_NOT => do
            let (t4, s5) ← nextT s4
            if t4.type = .T_NULL then .ok (some (.unBool .isNonNull e1), s5)
            else failP s5 "expected NULL or NOT NULL after IS"
          | _ => failP s4 "expected NULL or NOT NULL after IS"
        | .T_NOT => p.specialComparisons s3 e1 true
        | .T_BETWEEN => p.specialComparisons (retT s3) e1 false
        | .T_LIKE => p.specialComparisons (retT s3) e1 false
        | .T_IN => p.specialComparisons (retT s3) e1 false
        | _ => do
          let (t5, s4) ← nextT (retT s3)
          let op? : Option CmpOp :=
            match t5.type with
            | .T_EQUAL => some .eqOp
            | .T_NEQ => some .neqOp
            | .T_LESS => some .lsOp
            | .T_GRT => some .grOp
            | .T_LSEQ => some .lseqOp
            | .T_GREQ => some .greqOp
            | _ => none
          match op? with
          | none => .ok (some e1, retT s4)
          | some op => do
            let (oe2, s5) ← p.addExpression s4
            match oe2 with
            | none => .ok (none, s5)
            | some e2 => .ok (some (.cmp op e1 e2), s5)
  specialComparisons := fun s e1 negated => do
    let (t, s1) ← nextT s
    match t.type with
    | .T_LIKE => do
      let (t2, s2) ← nextT s1
      if t2.type ≠ .T_STRING then failP s2 "expected string after LIKE"
      else do
        let (t3, s3) ← nextT s2
        if t3.type = .T_ESCAPE then do
          let (t4, s4) ← nextT s3
          if t4.type ≠ .T_STRING then failP s4 "expected string after ESCAPE"
          else if t4.val.length > 1 then
            .error (throwParseError s4.tk "single character string required after ESCAPE")
          else if t4.val = "%" ∨ t4.val = "_" then
            .error (throwParseError s4.tk
              "\x27%\x27 and \x27_\x27 are not allowed as ESCAPE characters")
          else mkLike e1 t2.val t4.val negated s4
        else mkLike e1 t2.val "" negated (retT s3)
    | .T_BETWEEN => do
      let (ol, s2) ← p.addExpression s1
      match ol with
      | none => .ok (none, s2)
      | some l => do
        let (t2, s3) ← nextT s2
        if t2.type ≠ .T_AND then failP s3 "expected AND after BETWEEN"
        else do
          let (ou, s4) ← p.addExpression s3
          match ou with
          | none => .ok (none, s4)
          | some u =>
            let b : Tree := .between e1 l u
            .ok (some (if negated then .unBool .notOp b else b), s4)
    | .T_IN => do
      let (t2, s2) ← nextT s1
      if t2.type ≠ .T_LPAREN then failP s2 "missing \x27(\x27 after IN"
      else do
        let (olist, s3) ← p.inElems s2 []
        match olist with
        | none => .ok (none, s3)
        | some list =>
          .ok (some (if negated then .notIn e1 list else .inE e1 list), s3)
    | _ => failP s1 "expected LIKE, IN or BETWEEN"
  inElems := fun s acc => do
    let (oe, s1) ← p.addExpression s
    match oe with
    | none => .ok (none, s1)
    | some e => do
      let (t, s2) ← nextT s1
      if t.type = .T_COMMA then p.inElems s2 (acc ++ [e])
      else do
        let (t2, s4) ← nextT (retT s2)
        if t2.type = .T_RPAREN then .ok (some (acc ++ [e]), s4)
        else failP s4 "missing \x27,\x27 or \x27)\x27 after IN"
  addExpression := fun s => do
    let (oe, s1) ← p.multiplyExpression s
    match oe with
    | none => .ok (none, s1)
    | some e => p.addLoop e s1
  addLoop := fun e s => do
    let (t, s1) ← nextT s
    if t.type = .T_PLUS ∨ t.type = .T_MINUS then do
      let op : ArithOp := if t.type = .T_PLUS then .add else .sub
      let (oe2, s2) ← p.multiplyExpression s1
      match oe2 with
      | none => .ok (none, s2)
      | some e2 => p.addLoop (.arith op e e2) s2
    else .ok (some e, retT s1)
  multiplyExpression := fun s => do
    let (oe, s1) ← p.unaryArithExpression s
    match oe with
    | none => .ok (none, s1)
    | some e => p.multLoop e s1
  multLoop := fun e s => do
    let (t, s1) ← nextT s
    if t.type = .T_MULT ∨ t.type = .T_DIV then do
      let op : ArithOp := if t.type = .T_MULT then .mult else .div
      let (oe2, s2) ← p.unaryArithExpression s1
      match oe2 with
      | none => .ok (none, s2)
      | some e2 => p.multLoop (.arith op e e2) s2
    else .ok (some e, retT s1)
  unaryArithExpression := fun s => do
    let (t, s1) ← nextT s
    match t.type with
    | .T_LPAREN => do
      let (oe, s2) ← p.orExpression s1
      match oe with
      | none => .ok (none, s2)
      | some e => do
        let (t2, s3) ← nextT s2
        if t2.type = .T_RPAREN then .ok (some e, s3)
        else failP s3 "missing \x27)\x27 after \x27(\x27"
    | .T_PLUS => primaryExpression s1
    | .T_MINUS => do
      let (t2, s2) ← nextT s1
      if t2.type = .T_NUMERIC_EXACT then
        match parseExactNumeric t2.val true with
        | some e => .ok (some e, s2)
        | none => failP s2 "integer literal too big"
      else do
        let (oe, s3) ← p.unaryArithExpression (retT s2)
        match oe with
        | none => .ok (none, s3)
        | some e => .ok (some (.neg e), s3)
    | _ => primaryExpression (retT s1)

/-- The parser procedures at recursion budget `n` (a plain `Nat.rec` so that
reduction peels one `packStep` per recursive call). -/
def parserAt (n : Nat) : ParserPack :=
  @Nat.rec (fun _ => ParserPack) outOfFuel (fun _ ih => packStep ih) n

/-- `Parse::selectorExpression`: an empty token stream yields the literal
`TRUE`. -/
def selectorExpression (fuel : Nat) (s : ParseSt) :
    Except Err (Option Tree × ParseSt) := do
  let (t, s1) ← nextT s
  if t.type = .T_EOS then .ok (some (.literal (.bool true)), s1)
  else (parserAt fuel).orExpression (retT s1)

/-- `make_selector` of SelectorExpression.cpp. The returned value `.ok none`
is reachable: the C++ writes
`auto b = make_unique<ConcreteExpression>(parse.selectorExpression(tokeniser));
if (!b) throwParseError(tokeniser, parse.error);`
and `make_unique` never returns null, so when the parse fails with a null
tree and the next token is `T_EOS` the function returns a `ConcreteExpression`
wrapping a null expression instead of throwing. -/
def make_selector (exp : String) : Except Err (Option Tree) :=
  let tk : Tokeniser := { toks := [], tokp := 0, rest := exp.data }
  match selectorExpression (16 * exp.length + 64) { tk := tk, err := "" } with
  | .error e => .error e
  | .ok (oe, s1) =>
    match nextToken s1.tk with
    | .error e => .error e
    | .ok (t, tk2) =>
      if t.type = .T_EOS then .ok oe
      else .error (throwParseError tk2 "extra input")

/-- The top-level boolean API applied to a compilation result. Evaluating the
`.ok none` wrapper dereferences the null expression pointer — undefined
behaviour in the source — modelled as `none`, as is a compilation error. -/
def selectorEval (r : Except Err (Option Tree)) (env : Env) : Option Bool :=
  match r with
  | .ok (some t) => topEval t env
  | _ => none

/-- `repr` applied to a compilation result (`none` for errors and for the
null-wrapping result, whose `repr` call would also dereference null). -/
def reprOf (r : Except Err (Option Tree)) : Option String :=
  match r with
  | .ok (some t) => some (reprTree t)
  | _ => none

/-! ## Helper lemmas -/

/-- Round-tripping a `BoolOrNone` through `Value` is the identity (the C++
conversions compose the same way). -/
theorem toBN_bnToValue (bn : BoolOrNone) : toBN (bnToValue bn) = bn := by
  cases bn <;> rfl

/-! ## Claim C1 -/

/-- C1 (code bug): the claim — and spec §4.1/§7, which require integer
division by zero to yield `Unknown` so that evaluation never raises — is
contradicted by `operator/` of SelectorValue.cpp, which performs a raw
`int64_t` division: dividing `Exact 42` by `Exact 0` is undefined behaviour
(a SIGFPE trap on x86), modelled as `none`, so the selector `N/0 = 0` with
`N` bound to `Exact 42` does not evaluate to `false` — it does not evaluate
at all. -/
theorem c1_exact_division_by_zero_traps :
    valueDiv (.exact 42) (.exact 0) = none ∧
    make_selector "N/0 = 0" =
      .ok (some (.cmp .eqOp (.arith .div (.ident "N") (.literal (.exact 0)))
        (.literal (.exact 0)))) ∧
    selectorEval (make_selector "N/0 = 0")
      (fun n => if n = "N" then .exact 42 else .unknown) = none :=
  ⟨rfl, rfl, rfl⟩

/-! ## Claim C2 -/

/-- C2 (counterexample): contrary to the claim, the selector
`(-16 NOT IN ('hello','there',true)) IS NULL` evaluates to `false`, not
`true`: this revision's `NotInExpression::eval_bool` turns its
type-incompatibility rule into `BN_FALSE`, not `BN_UNKNOWN`. -/
theorem c2_counterexample :
    selectorEval
      (make_selector "(-16 NOT IN (\x27hello\x27,\x27there\x27,true)) IS NULL")
      (fun _ => .unknown) = some false :=
  rfl

/-- C2 (amended): `-16 NOT IN ('hello','there',true)` evaluates to `FALSE`
(every element's type is incompatible with the subject's and no unknown is
seen, so the running result becomes `BN_FALSE`), hence `… IS NULL` is `false`
and `… IS NOT NULL` is `true` at the top-level boolean API, in every
environment — exactly what this revision's own test suite asserts. -/
theorem c2_not_in_type_incompatibility_false :
    ∀ env : Env,
      evalBool (.notIn (.literal (.exact (-16)))
        [.strLit "hello", .strLit "there", .literal (.bool true)]) env
        = some .BN_FALSE ∧
      selectorEval
        (make_selector "(-16 NOT IN (\x27hello\x27,\x27there\x27,true)) IS NULL") env
        = some false ∧
      selectorEval
        (make_selector "(-16 NOT IN (\x27hello\x27,\x27there\x27,true)) IS NOT NULL") env
        = some true :=
  fun _ => ⟨rfl, rfl, rfl⟩

/-! ## Claim C3 -/

/-- C3 (code bug): `make_selector` checks `if (!b)` on the result of
`make_unique`, which is never null, so a parse failure whose last delivered
token was `T_EOS` is returned as an expression object wrapping a null tree
instead of propagating an error. The input `A is null or not` — which the
repository's own `parseStringFail` test expects to throw `std::range_error`
— compiles to exactly such a wrapper (`.ok none`). -/
theorem c3_make_selector_returns_null_wrapper :
    make_selector "A is null or not" = .ok none :=
  rfl

/-! ## Claim C5 -/

/-- C5 (counterexample): `toRegex` emits `\x7b` verbatim, not as the
one-character class `[\x7b]` the claim prescribes (of the claim's class set
`] \x7b \x7d ( ) - + ? |`, only `]` and `-` are so protected). -/
theorem c5_counterexample :
    toRegex "\x7b" "" = some "^\x7b$" ∧
    toRegex "\x7b" "" ≠ some "^[\x7b]$" :=
  ⟨rfl, by decide⟩

/-- The amended claim's per-character translation, restated recursively in
its own order: the declared escape character makes the next character
literal; an unescaped `%` becomes `.*` and an unescaped `_` becomes `.`;
each of `\ ^ $ . * [` is emitted backslash-escaped; each of `] -` is emitted
in a one-character character class; every other character — including
`\x7b \x7d ( ) + ? |` — is emitted verbatim. -/
def amendedLoop (e : Option Char) (pending : Bool) : List Char → List Char
| [] => []
| c :: cs =>
  if e = some c then amendedLoop e true cs
  else if c == '%' then (if pending then ['%'] else ['.', '*']) ++ amendedLoop e false cs
  else if c == '_' then (if pending then ['_'] else ['.']) ++ amendedLoop e false cs
  else if c == '\\' || c == '^' || c == '$' || c == '.' || c == '*' || c == '[' then
    '\\' :: c :: amendedLoop e false cs
  else if c == ']' || c == '-' then '[' :: c :: ']' :: amendedLoop e false cs
  else c :: amendedLoop e false cs

/-- The two translation loops agree character by character. -/
theorem toRegexLoop_eq_amendedLoop (e : Option Char) :
    ∀ (xs : List Char) (d : Bool), toRegexLoop e d xs = amendedLoop e d xs := by
  intro xs
  induction xs with
  | nil => intro d; rfl
  | cons c cs ih =>
    intro d
    simp only [toRegexLoop, amendedLoop]
    by_cases he : e = some c
    · rw [if_pos he, if_pos he]
      exact ih true
    · rw [if_neg he, if_neg he]
      by_cases h1 : c = '%'
      · subst h1; simp [ih]
      · by_cases h2 : c = '_'
        · subst h2; simp [ih]
        · by_cases h3 : c = ']'
          · subst h3; simp [ih]
          · by_cases h4 : c = '-'
            · subst h4; simp [ih]
            · by_cases h5 : (c == '\\' || c == '^' || c == '$' || c == '.'
                  || c == '*' || c == '[') = true
              · simp [h1, h2, h3, h4, h5, ih]
              · simp only [Bool.not_eq_true] at h5
                simp [h1, h2, h3, h4, h5, ih]

/-- C5 (amended): the parse-time LIKE translation anchors the pattern with
`^…$` and applies `amendedLoop`'s per-character rules (see its docstring);
the escape string must have at most one character. -/
theorem c5_like_translation_rules :
    ∀ s escape : String,
      toRegex s escape =
        if escape.length > 1 then none
        else some (String.mk
          ('^' :: (amendedLoop escape.data.head? false s.data ++ ['$']))) := by
  intro s escape
  unfold toRegex
  by_cases h : escape.length > 1
  · simp [h]
  · simp [h, toRegexLoop_eq_amendedLoop]

/-! ## Claim C6 -/

/-- C6 (counterexample): the empty selector is accepted and compiles to the
literal `TRUE`, but its pretty-printed form is the diagnostic string
`BOOL:true`, which the lexer rejects at `:` — so
`repr(compile(repr(compile(""))))` does not even parse, and the round-trip
claim fails at `s = ""`. -/
theorem c6_counterexample :
    make_selector "" = .ok (some (.literal (.bool true))) ∧
    reprOf (make_selector "") = some "BOOL:true" ∧
    make_selector "BOOL:true" = .error .lexErr :=
  ⟨rfl, rfl, rfl⟩

/-- C6 (amended): `repr` is a diagnostic encoding, not a canonical selector:
a tree containing a plain literal or an identifier prints a `:`-tagged form
(`BOOL:true`, `EXACT:…`, `I:…`) that the lexer rejects, so the round-trip
fails in general — e.g. at `s = ""`. It holds only on selectors whose
pretty-printed form stays inside the grammar, such as the pure string-literal
selector `'a' OR 'b'`, for which `repr ∘ compile` is idempotent. -/
theorem c6_repr_round_trip_fails_in_general :
    reprOf (make_selector "") = some "BOOL:true" ∧
    make_selector "BOOL:true" = .error .lexErr ∧
    reprOf (make_selector "\x27a\x27 OR \x27b\x27")
      = some "(\x27a\x27 OR \x27b\x27)" ∧
    reprOf (make_selector "(\x27a\x27 OR \x27b\x27)")
      = some "(\x27a\x27 OR \x27b\x27)" :=
  ⟨rfl, rfl, rfl, rfl⟩

/-! ## Claim C4 -/

/-- When the operands are not both numeric, `promoteNumeric` reports failure
and leaves them unchanged. -/
theorem promoteNumeric_not_numeric (a b : Value)
    (h : (numeric a && numeric b) = false) :
    promoteNumeric a b = (false, a, b) := by
  unfold promoteNumeric
  simp [h]

/-- C4 (confirmed): each ordering comparison of the value algebra returns
`false` outright when the operands cannot be promoted to a common numeric
type; through `booleval`, with neither operand `Unknown`, the evaluator turns
that into `BN_FALSE` (not `BN_UNKNOWN`); and the selector `'hello' > 19.0`
evaluates to `false` in every environment. -/
theorem c4_nonpromotable_orderings_false :
    (∀ a b : Value, (numeric a && numeric b) = false →
      valueLt a b = false ∧ valueGt a b = false ∧
      valueLe a b = false ∧ valueGe a b = false) ∧
    (∀ (a b : Value) (env : Env), (numeric a && numeric b) = false →
      unknownV a = false → unknownV b = false →
      evalBool (.cmp .lsOp (.literal a) (.literal b)) env = some .BN_FALSE ∧
      evalBool (.cmp .grOp (.literal a) (.literal b)) env = some .BN_FALSE ∧
      evalBool (.cmp .lseqOp (.literal a) (.literal b)) env = some .BN_FALSE ∧
      evalBool (.cmp .greqOp (.literal a) (.literal b)) env = some .BN_FALSE) ∧
    (∀ env : Env,
      selectorEval (make_selector "\x27hello\x27 > 19.0") env = some false) := by
  have hv : ∀ a b : Value, (numeric a && numeric b) = false →
      valueLt a b = false ∧ valueGt a b = false ∧
      valueLe a b = false ∧ valueGe a b = false := by
    intro a b h
    exact ⟨by simp [valueLt, promoteNumeric_not_numeric a b h],
           by simp [valueGt, promoteNumeric_not_numeric a b h],
           by simp [valueLe, promoteNumeric_not_numeric a b h],
           by simp [valueGe, promoteNumeric_not_numeric a b h]⟩
  have hb : ∀ (op : CmpOp) (a b : Value) (env : Env),
      unknownV a = false → unknownV b = false →
      evalBool (.cmp op (.literal a) (.literal b)) env
        = some (if cmpFn op a b then .BN_TRUE else .BN_FALSE) := by
    intro op a b env ha hbb
    simp [evalBool, evalV, boolevalV, ha, hbb, toBN_bnToValue]
  refine ⟨hv, ?_, fun env => rfl⟩
  intro a b env h h1 h2
  obtain ⟨l1, l2, l3, l4⟩ := hv a b h
  refine ⟨?_, ?_, ?_, ?_⟩
  · rw [hb .lsOp a b env h1 h2]; simp [cmpFn, l1]
  · rw [hb .grOp a b env h1 h2]; simp [cmpFn, l2]
  · rw [hb .lseqOp a b env h1 h2]; simp [cmpFn, l3]
  · rw [hb .greqOp a b env h1 h2]; simp [cmpFn, l4]

/-- C4 witness: the concrete pair `'hello'` / `19.0` (a string against an
inexact number) with a concrete environment. -/
theorem c4_nonpromotable_orderings_false_witness :
    valueGt (.str "hello") (.inexact 19) = false ∧
    evalBool (.cmp .grOp (.literal (.str "hello")) (.literal (.inexact 19)))
      (fun _ => .unknown) = some .BN_FALSE :=
  ⟨(c4_nonpromotable_orderings_false.1 (.str "hello") (.inexact 19) rfl).2.1,
   (c4_nonpromotable_orderings_false.2.1 (.str "hello") (.inexact 19)
     (fun _ => .unknown) rfl rfl rfl).2.1⟩

/-! ## Claim C9 -/

/-- `NOT(e)` at the evaluator: known result, three-valued negation. -/
theorem evalBool_notOp (t : Tree) (env : Env) (bn : BoolOrNone)
    (h : evalBool t env = some bn) :
    evalBool (.unBool .notOp t) env = some (bnNot bn) := by
  rw [evalBool] at h ⊢
  cases hv : evalV t env with
  | none => rw [hv] at h; simp at h
  | some v =>
    rw [hv] at h
    simp only [Option.map_some'] at h
    obtain rfl : toBN v = bn := by injection h
    simp [evalV, hv, toBN_bnToValue]

/-- C9 (confirmed): `e BETWEEN l AND u` evaluates all three sub-expressions
(a trap in any of them propagates; the hypotheses require all three to
produce a value); the result is `BN_UNKNOWN` when any of the three values is
`Unknown`, and otherwise is `BN_TRUE` exactly when `ve >= vl` and `ve <= vu`
under the value-algebra ordering — so a non-promotable comparison yields
`BN_FALSE`; and the parsed `NOT BETWEEN` form, `NOT(BETWEEN …)`, is the
three-valued negation of that result. -/
theorem c9_between_semantics :
    ∀ (e l u : Tree) (env : Env) (ve vl vu : Value),
      evalV e env = some ve → evalV l env = some vl → evalV u env = some vu →
      evalBool (.between e l u) env =
        some (if unknownV ve || unknownV vl || unknownV vu then .BN_UNKNOWN
              else if valueGe ve vl && valueLe ve vu then .BN_TRUE
              else .BN_FALSE) ∧
      evalBool (.unBool .notOp (.between e l u)) env =
        some (bnNot
          (if unknownV ve || unknownV vl || unknownV vu then .BN_UNKNOWN
           else if valueGe ve vl && valueLe ve vu then .BN_TRUE
           else .BN_FALSE)) := by
  intro e l u env ve vl vu h1 h2 h3
  have hb : evalBool (.between e l u) env =
      some (if unknownV ve || unknownV vl || unknownV vu then .BN_UNKNOWN
            else if valueGe ve vl && valueLe ve vu then .BN_TRUE
            else .BN_FALSE) := by
    rw [evalBool]
    simp [evalV, h1, h2, h3, toBN_bnToValue]
  exact ⟨hb, evalBool_notOp _ _ _ hb⟩

/-- C9 witness: `1 BETWEEN 0 AND 2` is `BN_TRUE` and its negation
`BN_FALSE`. -/
theorem c9_between_semantics_witness :
    evalBool (.between (.literal (.exact 1)) (.literal (.exact 0))
      (.literal (.exact 2))) (fun _ => .unknown) = some .BN_TRUE ∧
    evalBool (.unBool .notOp (.between (.literal (.exact 1))
      (.literal (.exact 0)) (.literal (.exact 2)))) (fun _ => .unknown)
      = some .BN_FALSE := by
  have h := c9_between_semantics (.literal (.exact 1)) (.literal (.exact 0))
    (.literal (.exact 2)) (fun _ => .unknown) (.exact 1) (.exact 0) (.exact 2)
    rfl rfl rfl
  exact ⟨h.1.trans (by decide), h.2.trans (by decide)⟩

/-! ## Claim C10 -/

/-- C10 (confirmed): the value-algebra equality operators do not themselves
propagate `Unknown` — on two `Unknown` operands `operator==` is `true` and
`operator!=` is `false` (same tag, equal empty payloads) — while the
`booleval` wrapper checks each operand for `Unknown` before invoking the
value operator and alone produces the `BN_UNKNOWN` result, as the
`Unknown = Unknown` comparison node shows. -/
theorem c10_unknown_equality_wrapper :
    valueEq .unknown .unknown = true ∧
    valueNe .unknown .unknown = false ∧
    (∀ (op : CmpOp) (e1 e2 : Tree) (env : Env) (v1 : Value),
      evalV e1 env = some v1 → unknownV v1 = true →
      evalBool (.cmp op e1 e2) env = some .BN_UNKNOWN) ∧
    (∀ (op : CmpOp) (e1 e2 : Tree) (env : Env) (v1 v2 : Value),
      evalV e1 env = some v1 → unknownV v1 = false →
      evalV e2 env = some v2 → unknownV v2 = true →
      evalBool (.cmp op e1 e2) env = some .BN_UNKNOWN) ∧
    (∀ env : Env,
      evalBool (.cmp .eqOp (.literal .unknown) (.literal .unknown)) env
        = some .BN_UNKNOWN) := by
  refine ⟨rfl, rfl, ?_, ?_, fun env => rfl⟩
  · intro op e1 e2 env v1 h1 hu
    simp [evalBool, evalV, boolevalV, h1, hu, bnToValue, toBN]
  · intro op e1 e2 env v1 v2 h1 hu1 h2 hu2
    simp [evalBool, evalV, boolevalV, h1, hu1, h2, hu2, bnToValue, toBN]

/-- C10 witness: an `Unknown` left operand against a known right operand. -/
theorem c10_unknown_equality_wrapper_witness :
    evalBool (.cmp .grOp (.literal .unknown) (.literal (.exact 3)))
      (fun _ => .unknown) = some .BN_UNKNOWN :=
  c10_unknown_equality_wrapper.2.2.1 .grOp (.literal .unknown)
    (.literal (.exact 3)) (fun _ => .unknown) .unknown rfl rfl

/-! ## Claim C8 -/

/-- On all-whitespace input the tokeniser's `START` state skips every
character and accepts `T_EOS`. -/
theorem startTok_spaces (xs : List Char) (h : ∀ c ∈ xs, isSpaceC c = true) :
    startTok xs = some ({ type := .T_EOS, val := "<END>" }, []) := by
  induction xs with
  | nil => rfl
  | cons c cs ih =>
    have hc : isSpaceC c = true := h c (by simp)
    have ih2 := ih fun d hd => h d (by simp [hd])
    rw [startTok.eq_def]
    simp [hc, ih2]

/-- C8 (confirmed): an empty or whitespace-only input compiles to the
literal `TRUE` (`Parse::selectorExpression` sees `T_EOS` first), so the
top-level boolean API returns `true` in every environment. -/
theorem c8_empty_or_whitespace_true :
    ∀ (s : String) (env : Env), (∀ c ∈ s.data, isSpaceC c = true) →
      make_selector s = .ok (some (.literal (.bool true))) ∧
      selectorEval (make_selector s) env = some true := by
  intro s env h
  have ht := startTok_spaces s.data h
  have hm : make_selector s = .ok (some (.literal (.bool true))) := by
    unfold make_selector selectorExpression
    simp only [nextT, nextToken, ht, returnTokens]
    rfl
  exact ⟨hm, by rw [hm]; rfl⟩

/-- C8 witness: the three-space selector of the specification's test
table. -/
theorem c8_empty_or_whitespace_true_witness :
    make_selector "   " = .ok (some (.literal (.bool true))) ∧
    selectorEval (make_selector "   ") (fun _ => .unknown) = some true :=
  c8_empty_or_whitespace_true "   " (fun _ => .unknown) (by decide)

/-! ## Claim C7 -/

/-- C7 (counterexample): the hex literal `0xFFFFFFFFFFFFFFFF` decodes to the
magnitude 2^64 − 1, far above what a signed 64-bit integer can represent,
yet it is not a parse error and is not the claim's single `-2^63` exception:
it compiles to `Exact (-1)` by two's-complement reinterpretation, and
`0xFFFFFFFFFFFFFFFF < 0` compiles and evaluates to `true`. -/
theorem c7_counterexample :
    parseExactNumeric "0xFFFFFFFFFFFFFFFF" false
      = some (.literal (.exact (-1))) ∧
    selectorEval (make_selector "0xFFFFFFFFFFFFFFFF < 0") (fun _ => .unknown)
      = some true :=
  ⟨rfl, rfl⟩

/-- C7 (amended): the overflow check applies only to plain decimal literals —
for a non-empty all-digit lexeme without a leading zero whose decimal value
exceeds `INT64_MAX`, decoding fails with the "integer literal too big" error
unless the literal is negated and the value is exactly 2^63, which yields
`INT64_MIN`; literals with an explicit base (hex, octal, binary) instead
accept any magnitude up to 2^64 − 1 and wrap (see the counterexample). The
two concrete consequences named by the claim hold:
`compile("9223372036854775808 > 0")` is a thrown parse error, and
`-9223372036854775808 = 0x8000_0000_0000_0000` compiles and evaluates to
`true`. -/
theorem c7_decimal_literal_overflow :
    (∀ (s : String) (negate : Bool),
      s.data ≠ [] → (∀ c ∈ s.data, isDigitC c = true) →
      s.data.head? ≠ some '0' →
      9223372036854775807 < digitsToNat 10 s.data →
      parseExactNumeric s negate =
        if negate ∧ digitsToNat 10 s.data = 9223372036854775808 then
          some (.literal (.exact (-9223372036854775808)))
        else none) ∧
    make_selector "9223372036854775808 > 0"
      = .error (.parseErr "Illegal selector: \x27>\x27: extra input") ∧
    (∀ env : Env,
      selectorEval
        (make_selector "-9223372036854775808 = 0x8000_0000_0000_0000") env
        = some true) := by
  refine ⟨?_, rfl, fun env => rfl⟩
  intro s negate hne hdig h0 hbig
  obtain ⟨c, rest, hcr⟩ : ∃ c rest, s.data = c :: rest := by
    cases hx : s.data with
    | nil => exact absurd hx hne
    | cons a l => exact ⟨a, l, rfl⟩
  have hc0 : c ≠ '0' := by
    intro hEq; subst hEq; rw [hcr] at h0; simp at h0
  have hfilter : s.data.filter (fun d => d ≠ '_') = s.data := by
    rw [List.filter_eq_self]
    intro d hd
    have hd2 := hdig d hd
    simp only [isDigitC, Bool.and_eq_true, decide_eq_true_eq] at hd2
    simp only [ne_eq, decide_eq_true_eq]
    intro heq; subst heq
    exact absurd hd2 (by decide)
  have hbase : exactBase s.data = (0, s.data) := by
    simp only [exactBase]
    have hp : (if ((s.data.get? 1).getD '\x00') = 'b'
          ∨ ((s.data.get? 1).getD '\x00') = 'B' then ((2 : Nat), s.data.drop 2)
        else if ((s.data.get? 1).getD '\x00') = 'x'
          ∨ ((s.data.get? 1).getD '\x00') = 'X' then ((16 : Nat), s.data.drop 2)
        else ((0 : Nat), s.data)) = ((0 : Nat), s.data) := by
      cases hg : s.data.get? 1 with
      | none => simp [hg]
      | some cc =>
        have hmem : cc ∈ s.data := List.get?_mem hg
        have hd2 := hdig cc hmem
        simp only [isDigitC, Bool.and_eq_true, decide_eq_true_eq] at hd2
        have hb : cc ≠ 'b' := by intro heq; subst heq; exact absurd hd2 (by decide)
        have hB : cc ≠ 'B' := by intro heq; subst heq; exact absurd hd2 (by decide)
        have hx : cc ≠ 'x' := by intro heq; subst heq; exact absurd hd2 (by decide)
        have hX : cc ≠ 'X' := by intro heq; subst heq; exact absurd hd2 (by decide)
        simp [hg, hb, hB, hx, hX]
    rw [hp]
    rw [hcr]
    simp [hc0]
  have hstr : strtoullM s.data 0 =
      (if digitsToNat 10 s.data ≤ 18446744073709551615
       then (digitsToNat 10 s.data, false)
       else (18446744073709551615, true)) := by
    simp only [strtoullM]
    rw [hcr]
    simp [hc0, digitsToNat]
  simp only [parseExactNumeric]
  rw [hfilter, hbase, hstr]
  by_cases hle : digitsToNat 10 s.data ≤ 18446744073709551615
  · rw [if_pos hle]
    have hgt : ¬(digitsToNat 10 s.data ≤ 9223372036854775807) := by omega
    simp [hgt]
  · rw [if_neg hle]
    have hne63 : digitsToNat 10 s.data ≠ 9223372036854775808 := by omega
    simp [hne63]

/-- C7 witness: the decimal lexeme `9223372036854775808` (= 2^63) is itself
too big, and negated it decodes to `INT64_MIN` through the single
exception. -/
theorem c7_decimal_literal_overflow_witness :
    parseExactNumeric "9223372036854775808" true
      = some (.literal (.exact (-9223372036854775808))) ∧
    parseExactNumeric "9223372036854775808" false = none := by
  have h1 := c7_decimal_literal_overflow.1 "9223372036854775808" true
    (by decide) (by decide) (by decide) (by decide)
  have h2 := c7_decimal_literal_overflow.1 "9223372036854775808" false
    (by decide) (by decide) (by decide) (by decide)
  exact ⟨h1.trans (by rfl), h2.trans (by rfl)⟩

end Selector
